import Mathlib

/-!
Verification of the Whatsapp-API repository's core: recipient
normalization, the rate-limit-protected send pipeline, the HTTP send
gates, and the connection-lifecycle flags, shallowly embedded from
`src/unnamed/part_000` and `src/app.js`.

Strings are modelled as `List Char`; clock timestamps as `Int`
(JavaScript `Date.now()` arithmetic); the remote transport as an
oracle list of per-attempt outcomes.
-/

namespace WhatsappApi

/-! ## Shared string helpers -/

/-- JavaScript `.replace(/\D/g, '')`: keep only digit characters. -/
def stripNonDigits (cs : List Char) : List Char := cs.filter Char.isDigit

/-- JavaScript `startsWith('0') ? substring(1)`: drop exactly one leading zero. -/
def dropLeadingZero (cs : List Char) : List Char :=
  if cs.head? = some '0' then cs.tail else cs

/-- The individual-chat suffix `@c.us`. -/
def cusSuffix : List Char := "@c.us".toList

/-- The group-chat suffix `@g.us`. -/
def gusSuffix : List Char := "@g.us".toList

/-- JavaScript `String.prototype.endsWith`. -/
def endsWith (suffix cs : List Char) : Bool :=
  suffix == cs.drop (cs.length - suffix.length)

/-- JavaScript `String.prototype.includes`: substring occurrence test. -/
def containsSub (pat : List Char) : List Char → Bool
  | [] => pat.isPrefixOf []
  | c :: rest => pat.isPrefixOf (c :: rest) || containsSub pat rest

/-! ## Recipient normalization

`part_000`'s `formatPhoneNumber` (lines 131-147) and `app.js`'s
`formatNumber` (lines 303-308) share the digit pipeline: strip
non-digits, drop one leading zero, prepend country code `91` when the
result has exactly 10 digits. -/

/-- Country-code step of both normalizers: `if (clean.length === 10) clean = '91' + clean`. -/
def withCountryCode (cs : List Char) : List Char :=
  if cs.length = 10 then '9' :: '1' :: cs else cs

/-- The digit part both normalizers compute before attaching a suffix. -/
def canonDigits (cs : List Char) : List Char :=
  withCountryCode (dropLeadingZero (stripNonDigits cs))

/-- `formatPhoneNumber` from `src/unnamed/part_000` lines 131-147:
strip, drop a leading zero, prepend `91` at 10 digits, then
`if (!cleanNumber.endsWith('@c.us')) cleanNumber += '@c.us'`. -/
def formatPhoneNumber (cs : List Char) : List Char :=
  if endsWith cusSuffix (canonDigits cs) then canonDigits cs
  else canonDigits cs ++ cusSuffix

/-- `formatNumber` from `src/app.js` lines 303-308 (inside the
`/send-message` handler): same digit pipeline, then unconditionally
`return clean + '@c.us'`. -/
def formatNumber (cs : List Char) : List Char := canonDigits cs ++ cusSuffix

/-- The normalization pipeline as the claim words it: strip all
non-digits; drop exactly one leading zero; prepend the default country
code exactly when the digit count is exactly 10; append the
individual-chat suffix only when no recognized individual or group
suffix is already present. -/
def claimNormalize (cs : List Char) : List Char :=
  let stripped := stripNonDigits cs
  let dropped := if stripped.head? = some '0' then stripped.tail else stripped
  let withCc := if dropped.length = 10 then '9' :: '1' :: dropped else dropped
  if endsWith cusSuffix withCc || endsWith gusSuffix withCc then withCc
  else withCc ++ cusSuffix

/-! ## The exported `phoneNumberFormatter` module (`app.js` lines 532-562)

The third normalizer in the repository, `module.exports`-ed from the
tail of `app.js`; it differs from the pipeline normalizers in its
zero and country-code rules. -/

/-- JavaScript values that can reach `phoneNumberFormatter(number)`. -/
inductive JSVal where
  | nullV
  | undefV
  | str (s : List Char)
  | intV (n : Int)
deriving DecidableEq, Repr

/-- Internal failures of the try block. -/
inductive JSErr where
  | typeError
deriving DecidableEq, Repr

/-- `number.toString()`: throws `TypeError` on `null`/`undefined`. -/
def jsToString : JSVal → Except JSErr (List Char)
  | .nullV => .error .typeError
  | .undefV => .error .typeError
  | .str s => .ok s
  | .intV n => .ok (toString n).toList

/-- The digit pipeline of the exported `phoneNumberFormatter`
(app.js module tail, lines 532-562): strip non-digits; a leading `0`
is replaced by `91` plus the rest; any result of at most 10 digits
gets `91` prepended; a leading `+` is removed (vacuous after the
strip); `@c.us` is appended unless an individual or group suffix is
present. -/
def phoneFmtBody (cs : List Char) : List Char :=
  let f1 := stripNonDigits cs
  let f2 := if f1.head? = some '0' then '9' :: '1' :: f1.tail else f1
  let f3 := if f2.length ≤ 10 then '9' :: '1' :: f2 else f2
  let f4 := if f3.head? = some '+' then f3.tail else f3
  if endsWith cusSuffix f4 || endsWith gusSuffix f4 then f4
  else f4 ++ cusSuffix

/-- The try block of `phoneNumberFormatter`. -/
def phoneFmtTry (v : JSVal) : Except JSErr (List Char) := do
  let s ← jsToString v
  pure (phoneFmtBody s)

/-- `phoneNumberFormatter` with its `try`/`catch`: on any internal
error it returns the raw argument unchanged. -/
def phoneNumberFormatter (v : JSVal) : JSVal :=
  match phoneFmtTry v with
  | .ok r => .str r
  | .error _ => v

/-- Canonical-form test on a returned value: a string bearing a
recognized network suffix. -/
def isCanonicalVal : JSVal → Bool
  | .str s => endsWith cusSuffix s || endsWith gusSuffix s
  | _ => false

/-! ## Digit-string lemmas -/

theorem allDigits_stripNonDigits (cs : List Char) :
    (stripNonDigits cs).all Char.isDigit = true := by
  rw [List.all_eq_true]
  intro a ha
  exact (List.mem_filter.mp ha).2

theorem allDigits_dropLeadingZero (cs : List Char)
    (h : cs.all Char.isDigit = true) :
    (dropLeadingZero cs).all Char.isDigit = true := by
  rw [List.all_eq_true] at h ⊢
  unfold dropLeadingZero
  split
  · intro a ha
    exact h a (List.mem_of_mem_tail ha)
  · exact h

theorem allDigits_withCountryCode (cs : List Char)
    (h : cs.all Char.isDigit = true) :
    (withCountryCode cs).all Char.isDigit = true := by
  unfold withCountryCode
  split
  · simp only [List.all_cons, h, Bool.and_true]
    decide
  · exact h

theorem allDigits_canonDigits (cs : List Char) :
    (canonDigits cs).all Char.isDigit = true :=
  allDigits_withCountryCode _
    (allDigits_dropLeadingZero _ (allDigits_stripNonDigits cs))

/-- A digit-only string cannot end in a suffix containing `@`. -/
theorem endsWith_false_of_allDigits (suffix cs : List Char)
    (hat : '@' ∈ suffix) (h : cs.all Char.isDigit = true) :
    endsWith suffix cs = false := by
  cases hE : endsWith suffix cs with
  | false => rfl
  | true =>
    exfalso
    unfold endsWith at hE
    have heq : suffix = cs.drop (cs.length - suffix.length) := beq_iff_eq.mp hE
    have hmem : '@' ∈ cs := List.drop_subset _ cs (heq ▸ hat)
    have := List.all_eq_true.mp h '@' hmem
    simp [Char.isDigit] at this

theorem endsWith_cus_canonDigits (cs : List Char) :
    endsWith cusSuffix (canonDigits cs) = false :=
  endsWith_false_of_allDigits _ _ (by decide) (allDigits_canonDigits cs)

theorem endsWith_gus_canonDigits (cs : List Char) :
    endsWith gusSuffix (canonDigits cs) = false :=
  endsWith_false_of_allDigits _ _ (by decide) (allDigits_canonDigits cs)

/-- Claim C4 counterexample: the exported `phoneNumberFormatter`
(app.js lines 532-562) does not follow the claimed pipeline. It
prepends the country code whenever the digit count is at most 10, not
exactly when it is exactly 10: on `"123"` it returns `"91123@c.us"`
where the claimed pipeline yields `"123@c.us"`. And instead of merely
dropping one leading zero it rewrites it to `91` plus the rest: on the
10-digit `"0123456789"` it returns `"91123456789@c.us"` where the
claimed pipeline yields `"123456789@c.us"`. -/
theorem c4_counterexample :
    phoneNumberFormatter (JSVal.str "123".toList) =
      JSVal.str "91123@c.us".toList ∧
    claimNormalize "123".toList = "123@c.us".toList ∧
    phoneNumberFormatter (JSVal.str "123".toList) ≠
      JSVal.str (claimNormalize "123".toList) ∧
    phoneNumberFormatter (JSVal.str "0123456789".toList) =
      JSVal.str "91123456789@c.us".toList ∧
    claimNormalize "0123456789".toList = "123456789@c.us".toList := by
  refine ⟨by decide, by decide, by decide, by decide, by decide⟩

/-- Claim C4 amended: the pipeline normalizers — `formatPhoneNumber`
(part_000 lines 131-147) and the `/send-message` handler's
`formatNumber` (app.js lines 303-308) — follow the claimed pipeline on
every input string: strip non-digits, drop exactly one leading zero,
prepend the default country code exactly when the (zero-dropped) digit
count is exactly 10, and append the individual-chat suffix only when
no recognized individual or group suffix is present. The exported
`phoneNumberFormatter` module deviates from this pipeline (its
country-code rule fires at any digit count up to 10 and its zero rule
substitutes `91` for the zero). -/
theorem c4_normalization_matches_claim (cs : List Char) :
    formatPhoneNumber cs = claimNormalize cs ∧
    formatNumber cs = claimNormalize cs := by
  have h1 := endsWith_cus_canonDigits cs
  have h2 := endsWith_gus_canonDigits cs
  have hcanon : claimNormalize cs =
      (if endsWith cusSuffix (canonDigits cs) || endsWith gusSuffix (canonDigits cs)
       then canonDigits cs else canonDigits cs ++ cusSuffix) := by
    simp only [claimNormalize, canonDigits, withCountryCode, dropLeadingZero]
  constructor
  · rw [hcanon]
    simp [formatPhoneNumber, h1, h2]
  · rw [hcanon]
    simp [formatNumber, h1, h2]

/-- Claim C4 witness: the round-trip example from the spec,
`"09876543210"` normalizes to `"919876543210@c.us"` in all three
formulations. -/
theorem c4_witness :
    formatPhoneNumber "09876543210".toList = "919876543210@c.us".toList ∧
    formatPhoneNumber "09876543210".toList = claimNormalize "09876543210".toList ∧
    formatNumber "09876543210".toList = claimNormalize "09876543210".toList :=
  ⟨by decide, (c4_normalization_matches_claim "09876543210".toList).1,
    (c4_normalization_matches_claim "09876543210".toList).2⟩

/-! ## Claim C5: idempotence of normalization -/

/-- Claim C5 counterexample: normalization is not idempotent on
already-canonical identifiers, for either cited implementation.
`formatPhoneNumber "001234"` yields `"01234@c.us"` — a canonical
output — which renormalizes to `"1234@c.us"`; the canonical group
identifier `"12345678901@g.us"` is rewritten to
`"12345678901@c.us"`; and the exported `phoneNumberFormatter` maps
its own output `"911@c.us"` (canonical for `"1"`, digit part not
zero-headed) to `"91911@c.us"`, because its country-code rule fires
again on the 3-digit part. -/
theorem c5_counterexample :
    formatPhoneNumber "001234".toList = "01234@c.us".toList ∧
    formatPhoneNumber (formatPhoneNumber "001234".toList) = "1234@c.us".toList ∧
    formatPhoneNumber (formatPhoneNumber "001234".toList) ≠ formatPhoneNumber "001234".toList ∧
    formatPhoneNumber "12345678901@g.us".toList ≠ "12345678901@g.us".toList ∧
    phoneNumberFormatter (JSVal.str "1".toList) = JSVal.str "911@c.us".toList ∧
    phoneNumberFormatter (JSVal.str "911@c.us".toList) =
      JSVal.str "91911@c.us".toList ∧
    phoneNumberFormatter (phoneNumberFormatter (JSVal.str "1".toList)) ≠
      phoneNumberFormatter (JSVal.str "1".toList) := by
  refine ⟨by decide, by decide, by decide, by decide, by decide, by decide,
    by decide⟩

theorem stripNonDigits_append_cus (d : List Char)
    (h : d.all Char.isDigit = true) :
    stripNonDigits (d ++ cusSuffix) = d := by
  unfold stripNonDigits
  rw [List.filter_append]
  have h1 : d.filter Char.isDigit = d :=
    List.filter_eq_self.mpr (List.all_eq_true.mp h)
  have h2 : cusSuffix.filter Char.isDigit = [] := by decide
  simp [h1, h2]

/-- Claim C5 amended: the pipeline normalizer `formatPhoneNumber` is
idempotent on canonical individual identifiers whose digit part does
not begin with a zero: whenever the stripped-and-zero-dropped digit
string of the input does not start with `'0'` (or has exactly 10
digits, in which case the country code is prepended), renormalizing
the output returns it unchanged. Group identifiers are not preserved,
and the exported `phoneNumberFormatter` is not idempotent even on
non-zero-headed canonical outputs (its country-code rule re-fires on
digit parts of at most 10 digits). -/
theorem c5_amended_idempotent_no_leading_zero (cs : List Char)
    (h : (dropLeadingZero (stripNonDigits cs)).head? ≠ some '0' ∨
         (dropLeadingZero (stripNonDigits cs)).length = 10) :
    formatPhoneNumber (formatPhoneNumber cs) = formatPhoneNumber cs := by
  have hall : (canonDigits cs).all Char.isDigit = true := allDigits_canonDigits cs
  have hlen : (canonDigits cs).length ≠ 10 := by
    unfold canonDigits withCountryCode
    split
    · simp only [List.length_cons]
      omega
    · assumption
  have hhead : (canonDigits cs).head? ≠ some '0' := by
    unfold canonDigits withCountryCode
    split
    · simp
    · rcases h with h | h
      · exact h
      · exact absurd h (by assumption)
  have houter : formatPhoneNumber cs = canonDigits cs ++ cusSuffix := by
    simp [formatPhoneNumber, endsWith_cus_canonDigits cs]
  rw [houter]
  have hstrip : stripNonDigits (canonDigits cs ++ cusSuffix) = canonDigits cs :=
    stripNonDigits_append_cus _ hall
  have hcanon2 : canonDigits (canonDigits cs ++ cusSuffix) = canonDigits cs := by
    conv_lhs => rw [canonDigits]
    rw [hstrip, dropLeadingZero, if_neg hhead, withCountryCode, if_neg hlen]
  simp [formatPhoneNumber, hcanon2,
    endsWith_false_of_allDigits cusSuffix _ (by decide) hall]

/-- Claim C5 witness: the amended idempotence applied to the canonical
form of `"9876543210"`. -/
theorem c5_witness :
    formatPhoneNumber (formatPhoneNumber "9876543210".toList) =
      formatPhoneNumber "9876543210".toList :=
  c5_amended_idempotent_no_leading_zero "9876543210".toList (Or.inl (by decide))

/-! ## Rate-limit-protected send pipeline (`src/unnamed/part_000` lines 26-203)

`RATE_LIMIT = { maxMessagesPerMinute: 10, delayBetweenMessages: 3000,
cooldownTime: 30000 }`; mutable globals `messageCountInMinute` and
`lastMessageTime`. The remote transport is modelled by an oracle list
giving each successive `client.sendMessage` outcome. -/

def maxMessagesPerMinute : Nat := 10

def delayBetweenMessages : Int := 3000

def cooldownTime : Int := 30000

/-- The mutable rate-tracking globals of part_000. -/
structure RateState where
  messageCountInMinute : Nat
  lastMessageTime : Int
deriving DecidableEq, Repr

/-- One remote `client.sendMessage` outcome supplied by the oracle. -/
inductive AttemptResult where
  | ok (msgId : Nat) (ts : Nat)
  | err (msg : List Char)
deriving DecidableEq, Repr

/-- part_000 lines 187-189: the rate-limit-shaped error test
`includes('rate limit') || includes('too many') || includes('blocked')`. -/
def rateLimitShaped (m : List Char) : Bool :=
  containsSub "rate limit".toList m || containsSub "too many".toList m ||
    containsSub "blocked".toList m

/-- Observations about a single attempt: how long step 1 and step 2
waited, the counter value at the moment `client.sendMessage` is
invoked, and the clock time of that invocation. -/
structure AttemptInfo where
  windowWaited : Int
  spacingWaited : Int
  countAtCall : Nat
  callTime : Int
deriving DecidableEq, Repr

/-- Result of one pass through `sendMessageWithProtection`'s body. -/
inductive AttemptStep where
  | success (msgId ts : Nat) (info : AttemptInfo) (after : RateState)
  | retryAfterCooldown (info : AttemptInfo) (after : RateState) (resumeTime : Int)
  | thrown (msg : List Char) (info : AttemptInfo) (after : RateState)
deriving DecidableEq, Repr

/-- One pass through the body of `sendMessageWithProtection`
(part_000 lines 150-203), given the current globals, the current
clock, and the remote outcome:
step 1 — if the counter is at the cap, wait 61000ms and reset it;
step 2 — if less than `delayBetweenMessages` elapsed since
`lastMessageTime`, wait the difference;
step 3 — invoke the remote send; on success set
`lastMessageTime = Date.now()` and increment the counter; on a
rate-limit-shaped error force the counter to the cap, wait
`cooldownTime`, reset it to 0 and retry; otherwise rethrow. -/
def sendAttempt (s : RateState) (now : Int) (res : AttemptResult) : AttemptStep :=
  let windowWaited : Int := if maxMessagesPerMinute ≤ s.messageCountInMinute then 61000 else 0
  let count1 : Nat := if maxMessagesPerMinute ≤ s.messageCountInMinute then 0
    else s.messageCountInMinute
  let t1 : Int := now + windowWaited
  let elapsed : Int := t1 - s.lastMessageTime
  let spacingWaited : Int := if elapsed < delayBetweenMessages
    then delayBetweenMessages - elapsed else 0
  let t2 : Int := t1 + spacingWaited
  let info : AttemptInfo := ⟨windowWaited, spacingWaited, count1, t2⟩
  match res with
  | .ok msgId ts => .success msgId ts info ⟨count1 + 1, t2⟩
  | .err m =>
    if rateLimitShaped m then
      .retryAfterCooldown info ⟨0, s.lastMessageTime⟩ (t2 + cooldownTime)
    else
      .thrown m info ⟨count1, s.lastMessageTime⟩

/-- Terminal outcome of the whole protected send. `attempts` counts
remote `client.sendMessage` invocations; `outOfFuel` marks the oracle
running out while the retry recursion keeps going. -/
inductive SendFinal where
  | ok (msgId ts : Nat) (after : RateState) (attempts : Nat)
  | threw (msg : List Char) (after : RateState) (attempts : Nat)
  | outOfFuel (after : RateState) (attempts : Nat)
deriving DecidableEq, Repr

def SendFinal.bumpAttempt : SendFinal → SendFinal
  | .ok i t a n => .ok i t a (n + 1)
  | .threw m a n => .threw m a (n + 1)
  | .outOfFuel a n => .outOfFuel a (n + 1)

def SendFinal.attemptsOf : SendFinal → Nat
  | .ok _ _ _ n => n
  | .threw _ _ n => n
  | .outOfFuel _ n => n

def SendFinal.isOkResult : SendFinal → Bool
  | .ok _ _ _ _ => true
  | _ => false

def SendFinal.rateAfter : SendFinal → RateState
  | .ok _ _ a _ => a
  | .threw _ a _ => a
  | .outOfFuel a _ => a

/-- `sendMessageWithProtection` (part_000 lines 150-203): run attempts
against successive oracle outcomes; a rate-limit-shaped failure
recursively re-enters the whole function (source line 198
`return sendMessageWithProtection(number, message)`). -/
def sendMessageWithProtection (s : RateState) (now : Int) :
    List AttemptResult → SendFinal
  | [] => .outOfFuel s 0
  | r :: rest =>
    match sendAttempt s now r with
    | .success i t _ after => .ok i t after 1
    | .thrown m _ after => .threw m after 1
    | .retryAfterCooldown _ after resume =>
      (sendMessageWithProtection after resume rest).bumpAttempt

/-! ## Claim C1: retry bound on rate-limit-shaped failures -/

def rlMsg : List Char := "rate limit".toList

/-- Claim C1 counterexample: two consecutive rate-limit-shaped
failures do not terminate the send with a TransportError — the code
performs a third remote attempt (and here succeeds), because the
retry is an unbounded recursive call. -/
theorem c1_counterexample :
    sendMessageWithProtection ⟨0, 0⟩ 100000
        [.err rlMsg, .err rlMsg, .ok 7 99] =
      .ok 7 99 ⟨1, 160000⟩ 3 ∧
    (sendMessageWithProtection ⟨0, 0⟩ 100000
        [.err rlMsg, .err rlMsg, .ok 7 99]).isOkResult = true := by
  refine ⟨by decide, by decide⟩

theorem bumpAttempt_attemptsOf (r : SendFinal) :
    r.bumpAttempt.attemptsOf = r.attemptsOf + 1 := by
  cases r <;> rfl

theorem bumpAttempt_isOkResult (r : SendFinal) :
    r.bumpAttempt.isOkResult = r.isOkResult := by
  cases r <;> rfl

/-- A leading rate-limit-shaped failure makes the whole send re-enter
itself on the rest of the oracle (with the counter reset and the clock
advanced past the cooldown). -/
theorem sendMessageWithProtection_retry_cons (s : RateState) (now : Int)
    (l : List AttemptResult) :
    ∃ s' now', sendMessageWithProtection s now (.err rlMsg :: l) =
      (sendMessageWithProtection s' now' l).bumpAttempt := by
  have h : ∃ info after resume,
      sendAttempt s now (.err rlMsg) = .retryAfterCooldown info after resume := by
    simp only [sendAttempt]
    rw [if_pos (by decide : rateLimitShaped rlMsg = true)]
    exact ⟨_, _, _, rfl⟩
  obtain ⟨info, after, resume, h⟩ := h
  refine ⟨after, resume, ?_⟩
  simp only [sendMessageWithProtection, h]

/-- Claim C1 amended: the pipeline retries the whole send on every
rate-limit-shaped failure with no bound: after any number `k` of
consecutive rate-limit-shaped failures followed by a success, the send
still succeeds, having invoked the remote transport `k + 1` times — a
rate-limit-shaped error never surfaces to the caller. -/
theorem c1_amended_retry_unbounded (k : Nat) (s : RateState) (now : Int)
    (i t : Nat) :
    (sendMessageWithProtection s now
        (List.replicate k (.err rlMsg) ++ [.ok i t])).isOkResult = true ∧
    (sendMessageWithProtection s now
        (List.replicate k (.err rlMsg) ++ [.ok i t])).attemptsOf = k + 1 := by
  induction k generalizing s now with
  | zero =>
    simp [sendMessageWithProtection, sendAttempt, SendFinal.isOkResult,
      SendFinal.attemptsOf]
  | succ n ih =>
    rw [List.replicate_succ, List.cons_append]
    obtain ⟨s', now', heq⟩ := sendMessageWithProtection_retry_cons s now
      (List.replicate n (.err rlMsg) ++ [.ok i t])
    rw [heq, bumpAttempt_isOkResult, bumpAttempt_attemptsOf]
    exact ⟨(ih s' now').1, by rw [(ih s' now').2]⟩

/-! ## Claim C3: when the send slot is recorded -/

def AttemptStep.infoOf : AttemptStep → AttemptInfo
  | .success _ _ i _ => i
  | .retryAfterCooldown i _ _ => i
  | .thrown _ i _ => i

def AttemptStep.afterOf : AttemptStep → RateState
  | .success _ _ _ a => a
  | .retryAfterCooldown _ a _ => a
  | .thrown _ _ a => a

/-- Claim C3 counterexample: the send slot is not recorded before the
remote dispatch. From state `⟨0, 0⟩` at time 100000 with a successful
remote outcome, the counter at the moment `client.sendMessage` is
invoked is still 0, and only the post-success state holds the
incremented count 1 — contradicting "it increments countInWindow and
sets lastSendAt, and only after that is the remote sendMessage
invoked". -/
theorem c3_counterexample :
    (sendAttempt ⟨0, 0⟩ 100000 (.ok 1 2)).infoOf.countAtCall = 0 ∧
    (sendAttempt ⟨0, 0⟩ 100000 (.ok 1 2)).afterOf.messageCountInMinute = 1 ∧
    (sendAttempt ⟨0, 0⟩ 100000 (.ok 1 2)).infoOf.countAtCall ≠
      (sendAttempt ⟨0, 0⟩ 100000 (.ok 1 2)).afterOf.messageCountInMinute := by
  refine ⟨by decide, by decide, by decide⟩

/-- Claim C3 amended: the wait steps follow the specified algorithm —
a 61s suspension with counter reset when the window cap is hit, then a
`minSpacing − elapsed` suspension — so that at the moment of dispatch
the counter is strictly below the cap and at least `minSpacing` has
elapsed since `lastSendAt`; but the slot is recorded only after the
remote `sendMessage` returns successfully: the post-success state is
exactly the at-call counter plus one, with `lastSendAt` set to the
dispatch time. -/
theorem c3_amended_slot_recorded_after_success (s : RateState) (now : Int)
    (i t : Nat) :
    (sendAttempt s now (.ok i t)).infoOf.windowWaited =
      (if maxMessagesPerMinute ≤ s.messageCountInMinute then 61000 else 0) ∧
    (sendAttempt s now (.ok i t)).infoOf.countAtCall =
      (if maxMessagesPerMinute ≤ s.messageCountInMinute then 0
       else s.messageCountInMinute) ∧
    (sendAttempt s now (.ok i t)).infoOf.countAtCall < maxMessagesPerMinute ∧
    delayBetweenMessages ≤
      (sendAttempt s now (.ok i t)).infoOf.callTime - s.lastMessageTime ∧
    (sendAttempt s now (.ok i t)).afterOf =
      ⟨(sendAttempt s now (.ok i t)).infoOf.countAtCall + 1,
        (sendAttempt s now (.ok i t)).infoOf.callTime⟩ := by
  refine ⟨?_, ?_, ?_, ?_, ?_⟩
  · simp only [sendAttempt, AttemptStep.infoOf]
  · simp only [sendAttempt, AttemptStep.infoOf]
  · simp only [sendAttempt, AttemptStep.infoOf, maxMessagesPerMinute]
    split <;> omega
  · simp only [sendAttempt, AttemptStep.infoOf, delayBetweenMessages]
    split <;> split <;> omega
  · simp only [sendAttempt, AttemptStep.infoOf, AttemptStep.afterOf]

/-! ## Claim C6: registration/invalid-number-shaped failures -/

def notRegisteredMsg : List Char := "number not registered".toList

/-- part_000 line 255: `errorType: error.message.includes('rate limit')
? 'RATE_LIMIT' : 'OTHER'` in the 500 response of `/send-message`. -/
inductive ErrType where
  | RATE_LIMIT
  | OTHER
deriving DecidableEq, Repr

def errorTypeOf (m : List Char) : ErrType :=
  if containsSub "rate limit".toList m then .RATE_LIMIT else .OTHER

/-! ## The `/send-message` route of part_000 (lines 206-259) -/

/-- The transport-connection observables the route consults:
`client.pupPage`, `client.pupPage.isClosed()`, and `client.info`
(set on the `ready` event; `/status` reports `isReady: !!client.info`). -/
structure ClientConn where
  pupPageExists : Bool
  pupPageClosed : Bool
  infoPresent : Bool
deriving DecidableEq, Repr

/-- part_000 line 226: `if (!client.pupPage || client.pupPage.isClosed())`
— the only gate before the protected send. -/
def sendGate (c : ClientConn) : Bool := c.pupPageExists && !c.pupPageClosed

/-- Outcome of a `/send-message` request: HTTP status, how many remote
`sendMessage` invocations happened, the rate globals afterwards, and the
`errorType` field of a 500 body (`none` otherwise). -/
structure RouteOutcome where
  status : Nat
  remoteAttempts : Nat
  rateAfter : RateState
  errType : Option ErrType
deriving DecidableEq, Repr

/-- The `/send-message` handler (part_000 lines 206-259): reject 400 on
missing fields; reject 400 when the page gate fails; otherwise run
`sendMessageWithProtection` and map success to 200 and a thrown error to
500 with `errorType` from `errorTypeOf`. -/
def sendMessageRoute (c : ClientConn) (s : RateState) (now : Int)
    (oracle : List AttemptResult) (numberNonEmpty bodyNonEmpty : Bool) :
    RouteOutcome :=
  if !(numberNonEmpty && bodyNonEmpty) then ⟨400, 0, s, none⟩
  else if !(sendGate c) then ⟨400, 0, s, none⟩
  else
    match sendMessageWithProtection s now oracle with
    | .ok _ _ a n => ⟨200, n, a, none⟩
    | .threw m a n => ⟨500, n, a, some (errorTypeOf m)⟩
    | .outOfFuel a n => ⟨0, n, a, none⟩

/-- Claim C6 counterexample: a `"number not registered"` failure is not
returned as a distinct `UnregisteredRecipient` error: the route answers
HTTP 500 with `errorType = OTHER`, exactly as it does for an arbitrary
unrelated transport failure such as `"boom"`, and unlike the 400-class
distinct error the spec assigns to unregistered recipients. -/
theorem c6_counterexample :
    sendMessageRoute ⟨true, false, true⟩ ⟨0, 0⟩ 100000
        [.err notRegisteredMsg] true true =
      ⟨500, 1, ⟨0, 0⟩, some .OTHER⟩ ∧
    sendMessageRoute ⟨true, false, true⟩ ⟨0, 0⟩ 100000
        [.err "boom".toList] true true =
      ⟨500, 1, ⟨0, 0⟩, some .OTHER⟩ := by
  refine ⟨by decide, by decide⟩

/-- Claim C6 amended: a failure whose message is not rate-limit-shaped —
in particular `"number not registered"` — is not retried: the send
terminates after that single attempt, rethrowing the message verbatim,
with `lastSendAt` untouched and no reservation consumed (the counter is
only changed by the step-1 window reset), surfaced by the route as a
generic HTTP 500 with `errorType = OTHER` rather than a distinct
`UnregisteredRecipient` error. -/
theorem c6_amended_not_retried_generic (s : RateState) (now : Int)
    (m : List Char) (rest : List AttemptResult)
    (h : rateLimitShaped m = false) :
    sendMessageWithProtection s now (.err m :: rest) =
      .threw m ⟨if maxMessagesPerMinute ≤ s.messageCountInMinute then 0
                else s.messageCountInMinute, s.lastMessageTime⟩ 1 ∧
    errorTypeOf m = .OTHER := by
  constructor
  · have hstep : ∃ info, sendAttempt s now (.err m) =
        .thrown m info
          ⟨if maxMessagesPerMinute ≤ s.messageCountInMinute then 0
            else s.messageCountInMinute, s.lastMessageTime⟩ := by
      simp only [sendAttempt, h, Bool.false_eq_true, if_false]
      exact ⟨_, rfl⟩
    obtain ⟨info, hstep⟩ := hstep
    simp only [sendMessageWithProtection, hstep]
  · unfold errorTypeOf
    rw [if_neg]
    intro hc
    unfold rateLimitShaped at h
    rw [hc] at h
    simp at h

/-- Claim C6 witness: the amended statement at the concrete
`"number not registered"` failure from idle state. -/
theorem c6_witness :
    sendMessageWithProtection ⟨0, 0⟩ 100000 [.err notRegisteredMsg] =
      .threw notRegisteredMsg ⟨0, 0⟩ 1 ∧
    errorTypeOf notRegisteredMsg = .OTHER := by
  have h := c6_amended_not_retried_generic ⟨0, 0⟩ 100000 notRegisteredMsg []
    (by decide)
  exact ⟨by rw [h.1]; decide, h.2⟩

/-! ## Claim C2: the readiness gate of `/send-message` -/

/-- Claim C2 counterexample: the gate consults only the page handle,
not the lifecycle phase. With the transport page open but the session
not Ready (`client.info` absent — the `/status` phase is not Ready),
the route does not reject: it invokes the remote `sendMessage`
(one attempt, HTTP 200), so the send gate is not false whenever
phase differs from Ready. -/
theorem c2_counterexample :
    (⟨true, false, false⟩ : ClientConn).infoPresent = false ∧
    sendGate ⟨true, false, false⟩ = true ∧
    (sendMessageRoute ⟨true, false, false⟩ ⟨0, 0⟩ 100000 [.ok 1 2]
        true true).remoteAttempts = 1 ∧
    (sendMessageRoute ⟨true, false, false⟩ ⟨0, 0⟩ 100000 [.ok 1 2]
        true true).status = 200 := by
  refine ⟨by decide, by decide, by decide, by decide⟩

theorem bumpAttempt_attemptsOf_pos (r : SendFinal) :
    1 ≤ r.bumpAttempt.attemptsOf := by
  cases r <;> simp [SendFinal.bumpAttempt, SendFinal.attemptsOf]

/-- On a nonempty oracle the protected send always performs at least
one remote attempt. -/
theorem sendMessageWithProtection_attempts_pos (s : RateState) (now : Int)
    (r : AttemptResult) (rest : List AttemptResult) :
    1 ≤ (sendMessageWithProtection s now (r :: rest)).attemptsOf := by
  simp only [sendMessageWithProtection]
  cases hstep : sendAttempt s now r with
  | success i t info after => simp [SendFinal.attemptsOf]
  | thrown m info after => simp [SendFinal.attemptsOf]
  | retryAfterCooldown info after resume => exact bumpAttempt_attemptsOf_pos _

/-- Claim C2 amended: with well-formed input, the `/send-message` route
rejects immediately with the 400 NotReady response — zero remote
invocations, rate globals unchanged — exactly when the transport page
handle is absent or closed; the lifecycle phase is not consulted, and
whenever the page gate passes the route dispatches to the remote
transport (at least one attempt on a nonempty oracle). -/
theorem c2_amended_gate_is_page_only (c : ClientConn) (s : RateState)
    (now : Int) (r : AttemptResult) (rest : List AttemptResult) :
    (sendGate c = false →
      sendMessageRoute c s now (r :: rest) true true = ⟨400, 0, s, none⟩) ∧
    (sendGate c = true →
      1 ≤ (sendMessageRoute c s now (r :: rest) true true).remoteAttempts) := by
  constructor
  · intro hg
    simp [sendMessageRoute, hg]
  · intro hg
    simp only [sendMessageRoute, hg]
    simp only [Bool.and_self, Bool.not_true, Bool.false_eq_true, if_false]
    cases hres : sendMessageWithProtection s now (r :: rest) with
    | ok i t a n =>
      have := sendMessageWithProtection_attempts_pos s now r rest
      rw [hres] at this
      simpa [RouteOutcome.remoteAttempts, SendFinal.attemptsOf] using this
    | threw m a n =>
      have := sendMessageWithProtection_attempts_pos s now r rest
      rw [hres] at this
      simpa [RouteOutcome.remoteAttempts, SendFinal.attemptsOf] using this
    | outOfFuel a n =>
      have := sendMessageWithProtection_attempts_pos s now r rest
      rw [hres] at this
      simpa [RouteOutcome.remoteAttempts, SendFinal.attemptsOf] using this

/-- Claim C2 witness: the amended gate characterization at concrete
states — a closed page rejects with the rate globals untouched, and an
open page dispatches. -/
theorem c2_witness :
    sendMessageRoute ⟨false, false, true⟩ ⟨3, 500⟩ 100000 [.ok 1 2]
        true true = ⟨400, 0, ⟨3, 500⟩, none⟩ ∧
    1 ≤ (sendMessageRoute ⟨true, false, true⟩ ⟨3, 500⟩ 100000 [.ok 1 2]
        true true).remoteAttempts :=
  ⟨(c2_amended_gate_is_page_only ⟨false, false, true⟩ ⟨3, 500⟩ 100000
      (.ok 1 2) []).1 (by decide),
   (c2_amended_gate_is_page_only ⟨true, false, true⟩ ⟨3, 500⟩ 100000
      (.ok 1 2) []).2 (by decide)⟩

/-! ## Lifecycle state of `src/app.js` (lines 75-167)

`app.js` keeps plain booleans `clientReady`, `clientAuthenticated` and
the string `qrCode`, mutated by the transport's event handlers. -/

/-- The lifecycle events `app.js` subscribes to. -/
inductive LcEvent where
  | loadingScreen
  | qr
  | authenticated
  | authFailure
  | ready
  | disconnected
  | changeState
  | message
deriving DecidableEq, BEq, Repr

/-- The global flags of `app.js` lines 29-34 (qrCode modelled by
presence). -/
structure AppState where
  ready : Bool
  authenticated : Bool
  hasQr : Bool
deriving DecidableEq, Repr

def initAppState : AppState := ⟨false, false, false⟩

/-- The event handlers of `app.js` lines 75-167:
`qr` stores the code; `authenticated` sets `clientAuthenticated`;
`auth_failure` clears both flags; `ready` sets `clientReady`
unconditionally; `disconnected` clears both flags. -/
def applyEvent (s : AppState) : LcEvent → AppState
  | .qr => { s with hasQr := true }
  | .authenticated => { s with authenticated := true }
  | .authFailure => { s with ready := false, authenticated := false }
  | .ready => { s with ready := true }
  | .disconnected => { s with ready := false, authenticated := false }
  | _ => s

def runEvents (s : AppState) (evs : List LcEvent) : AppState :=
  evs.foldl applyEvent s

/-- The spec's phase, projected from the `app.js` flags the way
`/status` reports them. -/
inductive Phase where
  | disconnectedPh
  | awaitingScan
  | authenticatedPh
  | readyPh
deriving DecidableEq, Repr

def phaseOf (s : AppState) : Phase :=
  if s.ready then .readyPh
  else if s.authenticated then .authenticatedPh
  else if s.hasQr then .awaitingScan
  else .disconnectedPh

/-- Claim C7 counterexample: the `ready` handler sets the flag
unconditionally, so the event sequence `[qr, ready]` drives the phase
from AwaitingScan straight to Ready without ever entering
Authenticated — the authenticated flag is still false afterwards. -/
theorem c7_counterexample :
    phaseOf (runEvents initAppState [.qr]) = .awaitingScan ∧
    (runEvents initAppState [.qr]).authenticated = false ∧
    phaseOf (runEvents initAppState [.qr, .ready]) = .readyPh ∧
    (runEvents initAppState [.qr, .ready]).authenticated = false := by
  refine ⟨by decide, by decide, by decide, by decide⟩

/-- Traces in which, since the last reset event (auth failure or
disconnect), every `ready` event is preceded by an `authenticated`
event; the Boolean argument tracks whether authentication has been
entered in the current session cycle. -/
def authBeforeReady : Bool → List LcEvent → Bool
  | _, [] => true
  | auth, e :: rest =>
    match e with
    | .ready => auth && authBeforeReady auth rest
    | .authenticated => authBeforeReady true rest
    | .authFailure => authBeforeReady false rest
    | .disconnected => authBeforeReady false rest
    | _ => authBeforeReady auth rest

theorem runEvents_inv (evs : List LcEvent) (s : AppState)
    (hok : authBeforeReady s.authenticated evs = true)
    (hinv : s.ready = true → s.authenticated = true) :
    (runEvents s evs).ready = true → (runEvents s evs).authenticated = true := by
  induction evs generalizing s with
  | nil => exact hinv
  | cons e rest ih =>
    cases e with
    | ready =>
      simp only [authBeforeReady, Bool.and_eq_true] at hok
      exact ih { s with ready := true } hok.2 (fun _ => hok.1)
    | authenticated =>
      simp only [authBeforeReady] at hok
      exact ih { s with authenticated := true } hok (fun _ => rfl)
    | authFailure =>
      simp only [authBeforeReady] at hok
      exact ih { s with ready := false, authenticated := false } hok
        (by intro h; exact absurd h (by simp))
    | disconnected =>
      simp only [authBeforeReady] at hok
      exact ih { s with ready := false, authenticated := false } hok
        (by intro h; exact absurd h (by simp))
    | qr =>
      simp only [authBeforeReady] at hok
      exact ih { s with hasQr := true } hok hinv
    | loadingScreen => exact ih s hok hinv
    | changeState => exact ih s hok hinv
    | message => exact ih s hok hinv

/-- Claim C7 amended: the handlers set the flags unconditionally, so
the no-skip property holds only for event sequences in which every
`ready` event is preceded, within its session cycle, by an
`authenticated` event: for such sequences from the initial state, the
ready flag being set implies the authenticated state was entered. -/
theorem c7_amended_no_skip_for_ordered_traces (evs : List LcEvent)
    (hok : authBeforeReady false evs = true)
    (hready : (runEvents initAppState evs).ready = true) :
    (runEvents initAppState evs).authenticated = true :=
  runEvents_inv evs initAppState hok (by intro h; exact absurd h (by decide))
    hready

/-- Claim C7 witness: the ordered trace qr → authenticated → ready
reaches Ready with the authenticated flag set. -/
theorem c7_witness :
    (runEvents initAppState [.qr, .authenticated, .ready]).authenticated
      = true :=
  c7_amended_no_skip_for_ordered_traces [.qr, .authenticated, .ready]
    (by decide) (by decide)

/-! ## Claim C8: reconnection scheduling on Disconnected -/

/-- Deferred work the handlers hand to `setTimeout`. -/
inductive DeferredTask where
  | startClient
deriving DecidableEq, Repr

/-- `app.js` lines 143-156: the `disconnected` handler clears the flags
and schedules exactly one `client.initialize()` 5000ms after the event;
no other lifecycle handler schedules anything. -/
def eventTasks (t : Nat) (e : LcEvent) : List (Nat × DeferredTask) :=
  if e = .disconnected then [(t + 5000, .startClient)] else []

/-- Run a timestamped event trace, collecting the scheduled tasks
(`app.js` has no cancellation of these timers). -/
def runTimed (s : AppState) : List (Nat × LcEvent) →
    AppState × List (Nat × DeferredTask)
  | [] => (s, [])
  | (t, e) :: rest =>
    let r := runTimed (applyEvent s e) rest
    (r.1, eventTasks t e ++ r.2)

/-- part_000 lines 96-112: its `disconnected` handler instead awaits a
30s cooldown when the reason mentions rate/block/limit, then destroys
the client, waits 2s and reinitializes inline — the delay from the
event to the re-establishment call. -/
def part000ReinitDelay (reason : List Char) : Nat :=
  (if containsSub "rate".toList reason || containsSub "block".toList reason ||
      containsSub "limit".toList reason then 30000 else 0) + 2000

/-- Claim C8 counterexample: the part_000 variant does not use a fixed
5-second backoff: for an ordinary disconnect reason the re-establishment
happens 2 seconds after the event, and for a rate-limit-shaped reason
32 seconds after — never 5. -/
theorem c8_counterexample :
    part000ReinitDelay "NAVIGATION".toList = 2000 ∧
    part000ReinitDelay "rate limit".toList = 32000 ∧
    part000ReinitDelay "NAVIGATION".toList ≠ 5000 ∧
    part000ReinitDelay "rate limit".toList ≠ 5000 := by
  refine ⟨by decide, by decide, by decide, by decide⟩

/-- Claim C8 amended: in the `app.js` service every `disconnected`
event — and no other lifecycle event — schedules exactly one automatic
`initialize` call, at exactly the event time plus 5000ms, and no task
is ever cancelled; in the part_000 variant the handler instead
reinitializes inline after `part000ReinitDelay` (2s, or 32s for a
rate-limit-shaped reason), not 5s. -/
theorem c8_amended_one_task_per_disconnect (trace : List (Nat × LcEvent))
    (s : AppState) :
    (runTimed s trace).2 =
      (trace.filter (fun p => p.2 == LcEvent.disconnected)).map
        (fun p => (p.1 + 5000, DeferredTask.startClient)) := by
  induction trace generalizing s with
  | nil => rfl
  | cons p rest ih =>
    obtain ⟨t, e⟩ := p
    by_cases he : e = .disconnected
    · subst he
      rw [List.filter_cons_of_pos (by rfl), List.map_cons]
      simp [runTimed, eventTasks, ih]
    · have hbeq : (e == LcEvent.disconnected) = false := by
        cases e <;> first | rfl | exact absurd rfl he
      rw [List.filter_cons_of_neg (by simp [hbeq])]
      simp [runTimed, eventTasks, he, ih]

/-! ## Claim C9: the `/send-media` handler's unbound formatter -/

/-- The names bound at module top level in `app.js` (its `require`s
and top-level `const`/`let`/function declarations, lines 1-257). -/
def appTopLevelNames : List String :=
  ["Client", "MessageMedia", "LocalAuth", "express", "body",
   "validationResult", "qrcode", "http", "fs", "path", "fileUpload",
   "port", "app", "server", "io", "authDir", "clientReady",
   "clientAuthenticated", "qrCode", "clientInfo", "sessionRestored",
   "client", "checkClientReady"]

/-- The names bound inside the `/send-message` handler's function scope
(`app.js` lines 290-333) — the only scope declaring `formatNumber`. -/
def sendMessageHandlerNames : List String :=
  ["errors", "number", "message", "formatNumber", "formattedNumber",
   "sentMessage"]

/-- Response of a `/send-media` request. -/
inductive MediaOutcome where
  | notReady400
  | needMedia400
  | sent200
  | err500 (msg : String)
deriving DecidableEq, Repr

/-- The `/send-media` handler (`app.js` lines 336-368) behind
`checkClientReady`: after the media check it evaluates
`formatNumber(number)`; resolving that identifier against the scopes
visible at that point (the handler's own body and module top level —
not the `/send-message` handler's body) throws a `ReferenceError`,
which the `catch` turns into HTTP 500; `client.sendMessage` is never
reached. The second component records whether a message was
dispatched. -/
def sendMediaRoute (ready hasMediaFile : Bool) : MediaOutcome × Bool :=
  if !ready then (.notReady400, false)
  else if !hasMediaFile then (.needMedia400, false)
  else if appTopLevelNames.contains "formatNumber" then (.sent200, true)
  else (.err500 "formatNumber is not defined", false)

/-- Claim C9: every `/send-media` request that passes the readiness
gate and supplies a media file answers HTTP 500 and dispatches
nothing, because `formatNumber` is bound only in the `/send-message`
handler's scope and is unbound where `/send-media` uses it. -/
theorem c9_sendMedia_always_500 :
    appTopLevelNames.contains "formatNumber" = false ∧
    sendMessageHandlerNames.contains "formatNumber" = true ∧
    sendMediaRoute true true =
      (.err500 "formatNumber is not defined", false) := by
  refine ⟨by decide, by decide, by decide⟩

/-! ## Claim C10: totality of `phoneNumberFormatter` -/

/-- Claim C10: `phoneNumberFormatter` is total: every input yields a
value rather than an exception, and whenever the try block fails the
raw user-supplied input is returned unchanged — so the result is not
guaranteed to be canonical: on `null` the returned value carries no
recognized suffix and is handed onward as-is. -/
theorem c10_total_raw_on_error :
    (∀ v e, phoneFmtTry v = .error e → phoneNumberFormatter v = v) ∧
    phoneFmtTry JSVal.nullV = .error JSErr.typeError ∧
    phoneNumberFormatter JSVal.nullV = JSVal.nullV ∧
    isCanonicalVal (phoneNumberFormatter JSVal.nullV) = false := by
  refine ⟨?_, rfl, by decide, by decide⟩
  intro v e h
  unfold phoneNumberFormatter
  rw [h]

/-- Claim C10 witness: the catch branch at the concrete input `null`. -/
theorem c10_witness : phoneNumberFormatter JSVal.nullV = JSVal.nullV :=
  c10_total_raw_on_error.1 JSVal.nullV JSErr.typeError rfl

end WhatsappApi
